import Mathlib

/-!
# Verification of the IoT sensor producer core

A shallow embedding, in Lean 4, of the two core subsystems of the
Kafka-iot-poc repository:

* the reading generator and anomaly classifier
  (`src/services/sensor_simulator.py`), and
* the broker publishing coordinator (`src/services/kafka_service.py`),
  together with the trigger orchestration loop (`src/api/sensors.py`).

Python floats are embedded as rationals (`ℚ`); the random source is made
explicit (standard-normal and uniform draws are inputs); wall-clock
timestamps are inputs; exceptions raised by the external Kafka client are
modelled as explicit outcome values.  Mutable object state (`self`) is
passed and returned explicitly.
-/

namespace IoT

/-! ## Data model (`src/models/__init__.py`) -/

/-- The `SensorData` (pydantic model): one environmental reading. -/
structure SensorData where
  sensor_id : String
  timestamp : String
  temperature : ℚ
  humidity : ℚ
  pressure : ℚ
  battery_level : ℚ
deriving Repr, DecidableEq

/-- The `SensorAlert` (pydantic model): one classified anomaly. -/
structure SensorAlert where
  alert_id : String
  sensor_id : String
  alert_type : String
  severity : String
  value : ℚ
  threshold : ℚ
  message : String
  timestamp : String
deriving Repr, DecidableEq

/-! ## Numeric helpers

`round(x, 2)` in Python 3 rounds to the nearest multiple of 1/100 with
ties going to the even multiple (round half to even); we model it exactly
on `ℚ`.  `random.gauss(mu, sigma)` is `mu + sigma * z` for a
standard-normal draw `z`; `random.uniform(a, b)` is `a + (b - a) * u` for
a draw `u` of `random.random()` in `[0, 1)`. -/

/-- Round a rational to the nearest integer, ties to even. -/
def roundHalfEven (y : ℚ) : ℤ :=
  let f := ⌊y⌋
  if y - f < 1/2 then f
  else if y - f > 1/2 then f + 1
  else if f % 2 = 0 then f else f + 1

/-- Python `round(x, 2)`. -/
def round2 (x : ℚ) : ℚ := (roundHalfEven (100 * x) : ℚ) / 100

/-- The `random.gauss(mu, sigma)` with the standard-normal draw `z` explicit. -/
def gauss (mu sigma z : ℚ) : ℚ := mu + sigma * z

/-- The `random.uniform(a, b)` with the `random.random()` draw `u` explicit. -/
def uniform (a b u : ℚ) : ℚ := a + (b - a) * u

/-- The `max(lo, min(hi, x))`, the clamping idiom used by the generator. -/
def clamp (lo hi x : ℚ) : ℚ := max lo (min hi x)

/-! ## Simulator configuration (`SensorSimulator.__init__`) -/

/-- One entry of `normal_ranges` with a gaussian part:
`{"mean": _, "std": _, "min": _, "max": _}`. -/
structure GaussRange where
  mean : ℚ
  std : ℚ
  min : ℚ
  max : ℚ
deriving Repr, DecidableEq

/-- The `battery` entry of `normal_ranges`: `{"min": _, "max": _}`. -/
structure BatteryRange where
  min : ℚ
  max : ℚ
deriving Repr, DecidableEq

/-- The `normal_ranges` configuration dict. -/
structure NormalRanges where
  temperature : GaussRange
  humidity : GaussRange
  pressure : GaussRange
  battery : BatteryRange
deriving Repr, DecidableEq

/-- The `alert_thresholds` entry for temperature and humidity:
`{"low": _, "high": _, "critical": _}`. -/
structure TriThresholds where
  low : ℚ
  high : ℚ
  critical : ℚ
deriving Repr, DecidableEq

/-- The `alert_thresholds` entry for pressure: `{"low": _, "high": _}`. -/
structure PressureThresholds where
  low : ℚ
  high : ℚ
deriving Repr, DecidableEq

/-- The `alert_thresholds` entry for battery: `{"low": _, "critical": _}`. -/
structure BatteryThresholds where
  low : ℚ
  critical : ℚ
deriving Repr, DecidableEq

/-- The `alert_thresholds` configuration dict. -/
structure AlertThresholds where
  temperature : TriThresholds
  humidity : TriThresholds
  pressure : PressureThresholds
  battery : BatteryThresholds
deriving Repr, DecidableEq

/-- The mutable state of a `SensorSimulator` instance: the monotone
`event_counter` plus the (never reassigned after `__init__`)
configuration tables. -/
structure SensorSimulator where
  event_counter : ℕ
  normal_ranges : NormalRanges
  alert_thresholds : AlertThresholds
deriving Repr, DecidableEq

/-- The state built by `SensorSimulator.__init__` (the `alert_thresholds`
dict is assigned twice in the source, with identical contents). -/
def SensorSimulator.init : SensorSimulator where
  event_counter := 0
  normal_ranges :=
    { temperature := { mean := 22.0, std := 2.0, min := 15.0, max := 35.0 }
      humidity := { mean := 55.0, std := 8.0, min := 20.0, max := 95.0 }
      pressure := { mean := 1013.25, std := 5.0, min := 980.0, max := 1040.0 }
      battery := { min := 0.3, max := 1.0 } }
  alert_thresholds :=
    { temperature := { low := 18.0, high := 26.0, critical := 30.0 }
      humidity := { low := 30.0, high := 80.0, critical := 90.0 }
      pressure := { low := 1000.0, high := 1025.0 }
      battery := { low := 0.2, critical := 0.1 } }

/-! ## Reading generation (`sensor_simulator.py`, lines 59-161) -/

/-- The draws one call takes from the Python `random` module: standard
normal draws for the three gaussian fields, and a `random.random()` draw
for the uniform battery level. -/
structure Draws where
  zTemp : ℚ
  zHumid : ℚ
  zPressure : ℚ
  uBattery : ℚ
deriving Repr, DecidableEq

/-- The `SensorSimulator.generate_sensor_data` (lines 59-103).  The ISO
timestamp string is an input (`datetime.utcnow()`). -/
def generate_sensor_data (sim : SensorSimulator) (sensor_id : String)
    (nowIso : String) (d : Draws) : SensorData × SensorSimulator :=
  let temp_config := sim.normal_ranges.temperature
  let temperature := gauss temp_config.mean temp_config.std d.zTemp
  let temperature := clamp temp_config.min temp_config.max temperature
  let temperature := round2 temperature
  let humid_config := sim.normal_ranges.humidity
  let humidity_adjustment := (temperature - temp_config.mean) * (-2)
  let humidity := gauss (humid_config.mean + humidity_adjustment) humid_config.std d.zHumid
  let humidity := clamp humid_config.min humid_config.max humidity
  let humidity := round2 humidity
  let pressure_config := sim.normal_ranges.pressure
  let pressure := gauss pressure_config.mean pressure_config.std d.zPressure
  let pressure := clamp pressure_config.min pressure_config.max pressure
  let pressure := round2 pressure
  let battery_config := sim.normal_ranges.battery
  let battery_level := uniform battery_config.min battery_config.max d.uBattery
  let battery_level := round2 battery_level
  ({ sensor_id := sensor_id, timestamp := nowIso, temperature := temperature,
     humidity := humidity, pressure := pressure, battery_level := battery_level },
   { sim with event_counter := sim.event_counter + 1 })

/-- The `SensorSimulator.generate_custom_sensor_data` (lines 105-141).
Temperature and humidity are caller-supplied verbatim; pressure and
battery are drawn when `None`.  Note: the drawn pressure is rounded but
NOT clamped, unlike in `generate_sensor_data`.  The method never touches
`self.event_counter`, so the state is returned unchanged. -/
def generate_custom_sensor_data (sim : SensorSimulator) (sensor_id : String)
    (temperature humidity : ℚ) (pressure battery_level : Option ℚ)
    (nowIso : String) (d : Draws) : SensorData × SensorSimulator :=
  let pressure :=
    match pressure with
    | none =>
      let pressure_config := sim.normal_ranges.pressure
      round2 (gauss pressure_config.mean pressure_config.std d.zPressure)
    | some p => p
  let battery_level :=
    match battery_level with
    | none =>
      let battery_config := sim.normal_ranges.battery
      round2 (uniform battery_config.min battery_config.max d.uBattery)
    | some b => b
  ({ sensor_id := sensor_id, timestamp := nowIso, temperature := temperature,
     humidity := humidity, pressure := pressure, battery_level := battery_level },
   sim)

/-- Python zero-padding of a natural number to width 3 (format 03d). -/
def pad3 (i : ℕ) : String :=
  if i < 10 then "00" ++ toString i
  else if i < 100 then "0" ++ toString i
  else toString i

/-- The loop body of `generate_batch`, over an explicit list of indices;
each index `i` consumes the draws `ds i`. -/
def generate_batch_go (nowIso : String) (ds : ℕ → Draws) :
    List ℕ → SensorSimulator → List SensorData × SensorSimulator
  | [], sim => ([], sim)
  | i :: rest, sim =>
    let (data, sim) := generate_sensor_data sim ("sensor_" ++ pad3 i) nowIso (ds i)
    let (batch, sim) := generate_batch_go nowIso ds rest sim
    (data :: batch, sim)

/-- The `SensorSimulator.generate_batch` (lines 143-161): readings for
`sensor_001 … sensor_{count:03d}` (Python `range(1, count + 1)`). -/
def generate_batch (sim : SensorSimulator) (nowIso : String) (ds : ℕ → Draws)
    (count : ℕ) : List SensorData × SensorSimulator :=
  generate_batch_go nowIso ds (List.range' 1 count) sim

/-! ## Anomaly classification (`sensor_simulator.py`, lines 163-300) -/

/-- Stand-in for Python float interpolation `{x}` inside the alert
message f-strings (the exact float repr is abstracted by the rational
printer; no claim inspects message text). -/
def fmt (q : ℚ) : String := toString q

/-- Stand-in for Python `{x:.0f}` (round to 0 decimals, ties to even). -/
def fmt0 (q : ℚ) : String := toString (roundHalfEven q)

/-- The `SensorSimulator._create_alert` (lines 279-300).  `int(datetime.utcnow().timestamp())`
is the input `now`; the ISO timestamp string is the input `nowIso`. -/
def _create_alert (sim : SensorSimulator) (sensor_data : SensorData)
    (alert_type severity : String) (value threshold : ℚ) (message : String)
    (now : ℕ) (nowIso : String) : SensorAlert where
  alert_id := "alert_" ++ toString sim.event_counter ++ "_" ++ alert_type ++ "_" ++ toString now
  sensor_id := sensor_data.sensor_id
  alert_type := alert_type
  severity := severity
  value := value
  threshold := threshold
  message := message
  timestamp := nowIso

/-- The `SensorSimulator._check_temperature_alerts` (lines 193-215). -/
def _check_temperature_alerts (sim : SensorSimulator) (sensor_data : SensorData)
    (now : ℕ) (nowIso : String) : List SensorAlert :=
  let temp := sensor_data.temperature
  let thresholds := sim.alert_thresholds.temperature
  if temp ≥ thresholds.critical then
    [_create_alert sim sensor_data "temperature" "critical" temp thresholds.critical
      ("Température critique: " ++ fmt temp ++ "°C (seuil: " ++ fmt thresholds.critical ++ "°C)")
      now nowIso]
  else if temp ≥ thresholds.high then
    [_create_alert sim sensor_data "temperature" "high" temp thresholds.high
      ("Température élevée: " ++ fmt temp ++ "°C (seuil: " ++ fmt thresholds.high ++ "°C)")
      now nowIso]
  else if temp ≤ thresholds.low then
    [_create_alert sim sensor_data "temperature" "low" temp thresholds.low
      ("Température basse: " ++ fmt temp ++ "°C (seuil: " ++ fmt thresholds.low ++ "°C)")
      now nowIso]
  else []

/-- The `SensorSimulator._check_humidity_alerts` (lines 217-239). -/
def _check_humidity_alerts (sim : SensorSimulator) (sensor_data : SensorData)
    (now : ℕ) (nowIso : String) : List SensorAlert :=
  let humidity := sensor_data.humidity
  let thresholds := sim.alert_thresholds.humidity
  if humidity ≥ thresholds.critical then
    [_create_alert sim sensor_data "humidity" "critical" humidity thresholds.critical
      ("Humidité critique: " ++ fmt humidity ++ "% (seuil: " ++ fmt thresholds.critical ++ "%)")
      now nowIso]
  else if humidity ≥ thresholds.high then
    [_create_alert sim sensor_data "humidity" "high" humidity thresholds.high
      ("Humidité élevée: " ++ fmt humidity ++ "% (seuil: " ++ fmt thresholds.high ++ "%)")
      now nowIso]
  else if humidity ≤ thresholds.low then
    [_create_alert sim sensor_data "humidity" "low" humidity thresholds.low
      ("Humidité basse: " ++ fmt humidity ++ "% (seuil: " ++ fmt thresholds.low ++ "%)")
      now nowIso]
  else []

/-- The `SensorSimulator._check_pressure_alerts` (lines 241-258). -/
def _check_pressure_alerts (sim : SensorSimulator) (sensor_data : SensorData)
    (now : ℕ) (nowIso : String) : List SensorAlert :=
  let pressure := sensor_data.pressure
  let thresholds := sim.alert_thresholds.pressure
  if pressure ≥ thresholds.high then
    [_create_alert sim sensor_data "pressure" "medium" pressure thresholds.high
      ("Pression élevée: " ++ fmt pressure ++ " hPa (seuil: " ++ fmt thresholds.high ++ " hPa)")
      now nowIso]
  else if pressure ≤ thresholds.low then
    [_create_alert sim sensor_data "pressure" "medium" pressure thresholds.low
      ("Pression basse: " ++ fmt pressure ++ " hPa (seuil: " ++ fmt thresholds.low ++ " hPa)")
      now nowIso]
  else []

/-- The `SensorSimulator._check_battery_alerts` (lines 260-277). -/
def _check_battery_alerts (sim : SensorSimulator) (sensor_data : SensorData)
    (now : ℕ) (nowIso : String) : List SensorAlert :=
  let battery := sensor_data.battery_level
  let thresholds := sim.alert_thresholds.battery
  if battery ≤ thresholds.critical then
    [_create_alert sim sensor_data "battery" "critical" battery thresholds.critical
      ("Batterie critique: " ++ fmt0 (battery * 100) ++ "% (seuil: " ++
        fmt0 (thresholds.critical * 100) ++ "%)")
      now nowIso]
  else if battery ≤ thresholds.low then
    [_create_alert sim sensor_data "battery" "medium" battery thresholds.low
      ("Batterie faible: " ++ fmt0 (battery * 100) ++ "% (seuil: " ++
        fmt0 (thresholds.low * 100) ++ "%)")
      now nowIso]
  else []

/-- The `SensorSimulator.detect_anomalies` (lines 163-191): the concatenation
of the four per-dimension checks, in source order. -/
def detect_anomalies (sim : SensorSimulator) (sensor_data : SensorData)
    (now : ℕ) (nowIso : String) : List SensorAlert :=
  _check_temperature_alerts sim sensor_data now nowIso ++
  _check_humidity_alerts sim sensor_data now nowIso ++
  _check_pressure_alerts sim sensor_data now nowIso ++
  _check_battery_alerts sim sensor_data now nowIso

/-! ## Broker publishing coordinator (`src/services/kafka_service.py`)

The external Kafka client library is not repository code; its visible
effects are modelled explicitly: constructing a client either succeeds or
raises (an `Except` input), a `send`/`get` round-trip either confirms or
fails (a `Bool` input per call), and calls made on the producer are
recorded in an event trace.  Handles held in `self` are `Option`s,
mirroring the `None` checks in the source. -/

/-- Python `pat in s` (substring containment), as used on
`str(type(e))` in `ensure_topics_exist`: `strStarts s p` checks that `p`
is an initial segment of `s`. -/
def strStarts : List Char → List Char → Bool
  | _, [] => true
  | [], _ :: _ => false
  | c :: s, p :: ps => c == p && strStarts s ps

/-- Substring occurrence over character lists. -/
def containsSub : List Char → List Char → Bool
  | [], pat => pat.isEmpty
  | c :: rest, pat => strStarts (c :: rest) pat || containsSub rest pat

/-- Python `pat in s` on strings. -/
def str_in (pat s : String) : Bool := containsSub s.data pat.data

/-- The mutable state of a `KafkaManager` instance (`__init__`,
lines 29-41). -/
structure KafkaManager where
  bootstrap_servers : List String
  client_id : String
  producer : Option Unit
  admin_client : Option Unit
  is_connected : Bool
deriving Repr, DecidableEq

/-- The `KafkaManager.__init__`: no handles, not connected. -/
def KafkaManager.init (bootstrap_servers : List String)
    (client_id : String) : KafkaManager where
  bootstrap_servers := bootstrap_servers
  client_id := client_id
  producer := none
  admin_client := none
  is_connected := false

/-- The `KafkaManager.initialize` (lines 43-75).  `adminRes` and
`producerRes` are the outcomes of constructing `KafkaAdminClient` and
`KafkaProducer` against the configured endpoints (each may raise).
Returns the Python return value and the updated state. -/
def KafkaManager.initialize (km : KafkaManager) (adminRes producerRes : Except String Unit) :
    Bool × KafkaManager :=
  match adminRes with
  | .error _ => (false, { km with is_connected := false })
  | .ok _ =>
    let km := { km with admin_client := some () }
    match producerRes with
    | .error _ => (false, { km with is_connected := false })
    | .ok _ =>
      let km := { km with producer := some (), is_connected := true }
      -- The next statement of the source, `self._ensure_topics_exist()`,
      -- looks up an attribute the class does not define (the method is
      -- `ensure_topics_exist`, and it takes a required argument), so
      -- Python raises AttributeError inside the `try`; the `except`
      -- handler sets `is_connected = False` and returns `False`.  The
      -- `try` body also contains no `return True`.
      (false, { km with is_connected := false })

/-- The `kafka.admin.NewTopic` as constructed in `ensure_topics_exist`. -/
structure NewTopic where
  name : String
  num_partitions : ℕ
  replication_factor : ℕ
deriving Repr, DecidableEq

/-- One entry of `topics_config`: the dict `{"name": _, "partitions": _,
"replication": _}`, where the last two are read with
`config.get(key, 1)`. -/
structure TopicConfig where
  name : String
  partitions : Option ℕ
  replication : Option ℕ
deriving Repr, DecidableEq

/-- Modelled from the spec: the broker side of the admin client
`create_topics` call (the Kafka client library is external to the
repository).  The broker holds the set of existing topic names;
`failure` injects an arbitrary broker-side exception (its
`str(type(e))`), covering the "any other error" case of the spec. -/
structure Broker where
  topics : List String
  failure : Option String
deriving Repr, DecidableEq

/-- Modelled from the spec: `admin_client.create_topics` either raises
the injected failure, raises a "topic already exists" exception when a
requested topic is already present (the idempotent-provisioning
condition of the spec, which the source recognizes by the substring
`TopicAlreadyExistsException` of `str(type(e))`), or creates all the
topics. -/
def create_topics (b : Broker) (new_topics : List NewTopic) :
    Except String Unit × Broker :=
  match b.failure with
  | some exc => (.error exc, b)
  | none =>
    if new_topics.any (fun t => b.topics.contains t.name) then
      (.error "<class kafka.errors.TopicAlreadyExistsException>", b)
    else
      (.ok (), { b with topics := b.topics ++ new_topics.map (fun t => t.name) })

/-- The `KafkaManager.ensure_topics_exist` (lines 77-116): `False` when the
admin handle is absent; otherwise build the `NewTopic` list, attempt one
batched `create_topics` call, treat a raised exception whose type string
contains `"TopicAlreadyExistsException"` as success, and report any
other exception as `False` (never re-raised). -/
def ensure_topics_exist (km : KafkaManager) (broker : Broker)
    (topics_config : List TopicConfig) : Bool × Broker :=
  if km.admin_client.isNone then (false, broker)
  else
    let topics := topics_config.map (fun config =>
      NewTopic.mk config.name (config.partitions.getD 1) (config.replication.getD 1))
    match create_topics broker topics with
    | (.ok _, broker) => (true, broker)
    | (.error e, broker) =>
      if str_in "TopicAlreadyExistsException" e then (true, broker)
      else (false, broker)

/-- One observable call made on the producer handle. -/
inductive KEvent (M : Type) where
  | send (topic : String) (message : M)
  | flush
deriving Repr, DecidableEq

/-- The `KafkaManager.publish_message` (lines 118-152): `False` without any
send attempt when not connected or the producer handle is absent;
otherwise one `send` is attempted and `sendOutcome` is the result of the
synchronous `future.get(timeout=10)` confirmation (`False` on any
raised error, which is swallowed).  The method never assigns to `self`,
so the state is returned unchanged. -/
def publish_message {M : Type} (km : KafkaManager) (sendOutcome : Bool)
    (topic : String) (message : M) : Bool × List (KEvent M) × KafkaManager :=
  if !km.is_connected || km.producer.isNone then (false, [], km)
  else (sendOutcome, [KEvent.send topic message], km)

/-- The `for message in messages` loop of `publish_batch`;
`sendOutcome i` is the transport outcome of the `i`-th send. -/
def publish_batch_go {M : Type} (sendOutcome : ℕ → Bool) (topic : String) :
    KafkaManager → ℕ → List M → ℕ × List (KEvent M) × KafkaManager
  | km, _, [] => (0, [], km)
  | km, i, message :: rest =>
    let (ok, tr, km) := publish_message km (sendOutcome i) topic message
    let (c, trs, km) := publish_batch_go sendOutcome topic km (i + 1) rest
    ((if ok then 1 else 0) + c, tr ++ trs, km)

/-- The `KafkaManager.publish_batch` (lines 154-179): `0` with no producer
call when not connected or the producer handle is absent; otherwise one
`publish_message` per payload in order, then exactly one
`producer.flush()`, returning the number of successful publishes. -/
def publish_batch {M : Type} (km : KafkaManager) (sendOutcome : ℕ → Bool)
    (topic : String) (messages : List M) : ℕ × List (KEvent M) × KafkaManager :=
  if !km.is_connected || km.producer.isNone then (0, [], km)
  else
    let (published_count, tr, km) := publish_batch_go sendOutcome topic km 0 messages
    (published_count, tr ++ [KEvent.flush], km)

/-- The dict returned by `KafkaManager.get_connection_status`
(lines 181-194). -/
structure ConnectionStatus where
  connected : Bool
  bootstrap_servers : List String
  client_id : String
  producer_available : Bool
  admin_client_available : Bool
deriving Repr, DecidableEq

/-- The `KafkaManager.get_connection_status` (lines 181-194). -/
def get_connection_status (km : KafkaManager) : ConnectionStatus where
  connected := km.is_connected
  bootstrap_servers := km.bootstrap_servers
  client_id := km.client_id
  producer_available := km.producer.isSome
  admin_client_available := km.admin_client.isSome

/-! ## Trigger orchestration (`src/api/sensors.py`) -/

/-- Topic names (`sensors.py`, lines 21-22). -/
def SENSOR_TOPIC : String := "sensors"

/-- Topic name for alerts. -/
def ALERT_TOPIC : String := "alerts"

/-- The process-wide `statistics` dict (`main.py`, lines 31-34). -/
structure Statistics where
  total_events_published : ℕ
  total_sensors_triggered : ℕ
deriving Repr, DecidableEq

/-- The `TriggerResponse` pydantic model, counts as naturals. -/
structure TriggerResponse where
  status : String
  sensors_triggered : ℕ
  events_published : ℕ
  topic : String
  timestamp : String
  message : String
deriving Repr, DecidableEq

/-- The `for alert in alerts` inner loop of `trigger_sensors`
(lines 118-121): publish each alert, counting successes.  `alertOk j` is
the transport outcome of the `j`-th alert send. -/
def publish_alerts_go (alertOk : ℕ → Bool) :
    KafkaManager → ℕ → List SensorAlert → ℕ × KafkaManager
  | km, _, [] => (0, km)
  | km, j, alert :: rest =>
    let (ok, _, km) := publish_message km (alertOk j) ALERT_TOPIC alert
    let (c, km) := publish_alerts_go alertOk km (j + 1) rest
    ((if ok then 1 else 0) + c, km)

/-- The `for sensor_data in batch` loop of `trigger_sensors`
(lines 107-121): publish the reading; on success increment
`published_count` and the published-events counter, classify,
and publish the resulting alerts.  Returns
`(published_count, alerts_generated, statistics, manager)`. -/
def trigger_loop (sim : SensorSimulator) (now : ℕ) (nowIso : String)
    (readingOk : ℕ → Bool) (alertOk : ℕ → ℕ → Bool) :
    KafkaManager → ℕ → List SensorData → Statistics →
      ℕ × ℕ × Statistics × KafkaManager
  | km, _, [], stats => (0, 0, stats, km)
  | km, i, sensor_data :: rest, stats =>
    let (ok, _, km) := publish_message km (readingOk i) SENSOR_TOPIC sensor_data
    if ok then
      let stats := { stats with
        total_events_published := stats.total_events_published + 1 }
      let alerts := detect_anomalies sim sensor_data now nowIso
      let (a, km) := publish_alerts_go (alertOk i) km 0 alerts
      let (p, ag, stats, km) :=
        trigger_loop sim now nowIso readingOk alertOk km (i + 1) rest stats
      (p + 1, ag + a, stats, km)
    else
      let (p, ag, stats, km) :=
        trigger_loop sim now nowIso readingOk alertOk km (i + 1) rest stats
      (p, ag, stats, km)

/-- The `trigger_sensors` (`sensors.py`, lines 50-145): fail fast with a 503
when not connected; otherwise generate the batch, run the publish loop,
increment `total_sensors_triggered` by `count` after the loop, and build
the response.  The `Except` models the raised `HTTPException`. -/
def trigger_sensors (km : KafkaManager) (sim : SensorSimulator)
    (stats : Statistics) (count : ℕ) (now : ℕ) (nowIso : String)
    (ds : ℕ → Draws) (readingOk : ℕ → Bool) (alertOk : ℕ → ℕ → Bool) :
    Except String (TriggerResponse × Statistics × SensorSimulator × KafkaManager) :=
  if !km.is_connected then
    .error "Kafka connection unavailable. Check service health."
  else
    let (batch, sim) := generate_batch sim nowIso ds count
    let (published_count, alerts_generated, stats, km) :=
      trigger_loop sim now nowIso readingOk alertOk km 0 batch stats
    let stats := { stats with
      total_sensors_triggered := stats.total_sensors_triggered + count }
    let success_message := "Successfully published " ++ toString published_count
      ++ "/" ++ toString count ++ " sensor events"
    let success_message :=
      if alerts_generated > 0 then
        success_message ++ " and " ++ toString alerts_generated ++ " alerts"
      else success_message
    .ok ({ status := "success", sensors_triggered := count,
           events_published := published_count, topic := SENSOR_TOPIC,
           timestamp := nowIso, message := success_message },
         stats, sim, km)

/-! ### Concrete fixtures (used by witness and counterexample theorems) -/

/-- A reading with battery at 0.15 and every other dimension inside its
normal band. -/
def readingBattery015 : SensorData where
  sensor_id := "sensor_anomaly_test"
  timestamp := "2025-10-29T14:30:00Z"
  temperature := 22
  humidity := 55
  pressure := 1013.25
  battery_level := 0.15

/-- A coordinator state with both handles present and the connected flag
set. -/
def kmConnected : KafkaManager where
  bootstrap_servers := ["localhost:9092"]
  client_id := "iot_producer"
  producer := some ()
  admin_client := some ()
  is_connected := true

/-- Transport outcomes failing exactly calls 1 and 3 (counting from 0). -/
def failOn1and3 : ℕ → Bool := fun i => !(i == 1 || i == 3)

/-- All-zero draws: every gaussian field at its mean, battery at its
minimum. -/
def drawsZero : Draws where
  zTemp := 0
  zHumid := 0
  zPressure := 0
  uBattery := 0

/-- Draws whose pressure draw is 200 standard deviations high, giving a
gaussian pressure of 2013.25 hPa, far outside [980, 1040]. -/
def drawsHighPressure : Draws where
  zTemp := 0
  zHumid := 0
  zPressure := 200
  uBattery := 0

/-- An empty broker with no injected failure. -/
def brokerEmpty : Broker where
  topics := []
  failure := none

/-- The topic specs the application provisions at startup. -/
def topicsCfg : List TopicConfig :=
  [{ name := "sensors", partitions := some 1, replication := some 1 },
   { name := "alerts", partitions := some 1, replication := some 1 }]

/-! ## Theorems -/

/-- C1: the claim says `initialize` returns success when both client
constructions succeed, marking the coordinator connected.  In the source
the `try` body then executes `self._ensure_topics_exist()`, an attribute
the class does not define, so even the no-error path raises
AttributeError, is caught, marks the manager disconnected and returns
`False` (and the `try` body has no `return True` either): `initialize`
reports failure and leaves `is_connected = False` on every input,
contradicting its own docstring ("True si la connexion est réussie"). -/
theorem initialize_never_reports_success
    (km : KafkaManager) (adminRes producerRes : Except String Unit) :
    ( KafkaManager.initialize km adminRes producerRes).1 = false ∧
    ( KafkaManager.initialize km adminRes producerRes).2.is_connected = false := by
  cases adminRes <;> cases producerRes <;>
    simp [ KafkaManager.initialize]

/-- C9: `generate_custom_sensor_data` never touches `self.event_counter`
(the whole simulator state is returned unchanged), while
`generate_sensor_data` increments it by one. -/
theorem generate_custom_preserves_event_counter
    (sim : SensorSimulator) (sensor_id : String) (temperature humidity : ℚ)
    (pressure battery_level : Option ℚ) (nowIso : String) (d : Draws) :
    (generate_custom_sensor_data sim sensor_id temperature humidity
        pressure battery_level nowIso d).2.event_counter = sim.event_counter ∧
    (generate_custom_sensor_data sim sensor_id temperature humidity
        pressure battery_level nowIso d).2 = sim ∧
    ∀ (sid : String) (iso : String) (d2 : Draws),
      (generate_sensor_data sim sid iso d2).2.event_counter
        = sim.event_counter + 1 := by
  refine ⟨rfl, rfl, fun sid iso d2 => rfl⟩

/-- C10: with the coordinator not connected or the producer handle
absent, `publish_message` returns `False` with no producer call and the
state unchanged, and `publish_batch` returns `0` with no producer call
(in particular no flush) and the state unchanged. -/
theorem publish_disconnected_is_noop {M : Type} (km : KafkaManager)
    (sendOutcome : Bool) (batchOutcome : ℕ → Bool) (topic : String)
    (message : M) (messages : List M)
    (h : km.is_connected = false ∨ km.producer = none) :
    publish_message km sendOutcome topic message = (false, [], km) ∧
    publish_batch km batchOutcome topic messages = (0, [], km) := by
  have hguard : (!km.is_connected || km.producer.isNone) = true := by
    rcases h with h | h <;> simp [h]
  constructor
  · simp [publish_message, hguard]
  · simp [publish_batch, hguard]

/-- Witness for C10 at a concrete freshly-constructed manager (never
initialized, hence disconnected) and a concrete payload list. -/
theorem publish_disconnected_is_noop_witness :
    ((KafkaManager.init ["localhost:9092"] "iot_producer").is_connected = false) ∧
    publish_message (KafkaManager.init ["localhost:9092"] "iot_producer")
        true "sensors" (7 : ℕ)
      = (false, [], KafkaManager.init ["localhost:9092"] "iot_producer") ∧
    publish_batch (KafkaManager.init ["localhost:9092"] "iot_producer")
        (fun _ => true) "sensors" ([7, 8, 9] : List ℕ)
      = (0, [], KafkaManager.init ["localhost:9092"] "iot_producer") := by
  refine ⟨rfl, ?_⟩
  exact publish_disconnected_is_noop (KafkaManager.init ["localhost:9092"] "iot_producer")
    true (fun _ => true) "sensors" (7 : ℕ) ([7, 8, 9] : List ℕ) (Or.inl rfl)

/-! ### Classifier ladder lemmas (for C3 and C4) -/

/-- Each alert emitted by the temperature check carries
`alert_type = "temperature"`. -/
theorem check_temperature_types (sim : SensorSimulator) (r : SensorData)
    (now : ℕ) (nowIso : String) :
    ∀ a ∈ _check_temperature_alerts sim r now nowIso,
      a.alert_type = "temperature" := by
  intro a ha
  unfold _check_temperature_alerts at ha
  simp only at ha
  split at ha <;> [skip; split at ha] <;> [skip; skip; split at ha] <;>
    simp_all [ _create_alert]

/-- The temperature check is a first-match-wins ladder: at most one
alert. -/
theorem check_temperature_len (sim : SensorSimulator) (r : SensorData)
    (now : ℕ) (nowIso : String) :
    (_check_temperature_alerts sim r now nowIso).length ≤ 1 := by
  unfold _check_temperature_alerts
  dsimp only
  split_ifs <;> simp

/-- Each alert emitted by the humidity check carries
`alert_type = "humidity"`. -/
theorem check_humidity_types (sim : SensorSimulator) (r : SensorData)
    (now : ℕ) (nowIso : String) :
    ∀ a ∈ _check_humidity_alerts sim r now nowIso, a.alert_type = "humidity" := by
  intro a ha
  unfold _check_humidity_alerts at ha
  simp only at ha
  split at ha <;> [skip; split at ha] <;> [skip; skip; split at ha] <;>
    simp_all [ _create_alert]

/-- The humidity check emits at most one alert. -/
theorem check_humidity_len (sim : SensorSimulator) (r : SensorData)
    (now : ℕ) (nowIso : String) :
    (_check_humidity_alerts sim r now nowIso).length ≤ 1 := by
  unfold _check_humidity_alerts
  dsimp only
  split_ifs <;> simp

/-- Each alert emitted by the pressure check carries
`alert_type = "pressure"`. -/
theorem check_pressure_types (sim : SensorSimulator) (r : SensorData)
    (now : ℕ) (nowIso : String) :
    ∀ a ∈ _check_pressure_alerts sim r now nowIso, a.alert_type = "pressure" := by
  intro a ha
  unfold _check_pressure_alerts at ha
  simp only at ha
  split at ha <;> [skip; split at ha] <;> simp_all [ _create_alert]

/-- The pressure check emits at most one alert. -/
theorem check_pressure_len (sim : SensorSimulator) (r : SensorData)
    (now : ℕ) (nowIso : String) :
    (_check_pressure_alerts sim r now nowIso).length ≤ 1 := by
  unfold _check_pressure_alerts
  dsimp only
  split_ifs <;> simp

/-- Each alert emitted by the battery check carries
`alert_type = "battery"`. -/
theorem check_battery_types (sim : SensorSimulator) (r : SensorData)
    (now : ℕ) (nowIso : String) :
    ∀ a ∈ _check_battery_alerts sim r now nowIso, a.alert_type = "battery" := by
  intro a ha
  unfold _check_battery_alerts at ha
  simp only at ha
  split at ha <;> [skip; split at ha] <;> simp_all [ _create_alert]

/-- The battery check emits at most one alert. -/
theorem check_battery_len (sim : SensorSimulator) (r : SensorData)
    (now : ℕ) (nowIso : String) :
    (_check_battery_alerts sim r now nowIso).length ≤ 1 := by
  unfold _check_battery_alerts
  dsimp only
  split_ifs <;> simp

/-- A list all of whose alerts have type `t` filters to `[]` on any
other dimension name. -/
theorem filter_eq_nil_of_types {l : List SensorAlert} {t : String}
    (h : ∀ a ∈ l, a.alert_type = t) {dim : String} (hne : dim ≠ t) :
    l.filter (fun a => a.alert_type == dim) = [] := by
  rw [List.filter_eq_nil_iff]
  intro a ha
  simp [h a ha, Ne.symm hne]

/-- C4: `detect_anomalies` yields at most four alerts (one per
dimension), and for every dimension name the alerts carrying that
dimension number at most one — each per-dimension check is a
first-match-wins if/elif ladder, so a reading is never reported both
high and critical on the same dimension. -/
theorem detect_anomalies_at_most_one_per_dimension
    (sim : SensorSimulator) (r : SensorData) (now : ℕ) (nowIso : String) :
    (detect_anomalies sim r now nowIso).length ≤ 4 ∧
    ∀ dim : String,
      ((detect_anomalies sim r now nowIso).filter
        (fun a => a.alert_type == dim)).length ≤ 1 := by
  have h1 := check_temperature_len sim r now nowIso
  have h2 := check_humidity_len sim r now nowIso
  have h3 := check_pressure_len sim r now nowIso
  have h4 := check_battery_len sim r now nowIso
  constructor
  · simp only [detect_anomalies, List.length_append]
    omega
  · intro dim
    simp only [detect_anomalies, List.filter_append, List.length_append]
    by_cases e1 : dim = "temperature"
    · rw [filter_eq_nil_of_types (check_humidity_types sim r now nowIso) (by rw [e1]; decide),
          filter_eq_nil_of_types (check_pressure_types sim r now nowIso) (by rw [e1]; decide),
          filter_eq_nil_of_types (check_battery_types sim r now nowIso) (by rw [e1]; decide)]
      have hl := List.length_filter_le (fun a => a.alert_type == dim)
        (_check_temperature_alerts sim r now nowIso)
      simp only [List.length_nil]
      omega
    · by_cases e2 : dim = "humidity"
      · rw [filter_eq_nil_of_types (check_temperature_types sim r now nowIso) (by rw [e2]; decide),
            filter_eq_nil_of_types (check_pressure_types sim r now nowIso) (by rw [e2]; decide),
            filter_eq_nil_of_types (check_battery_types sim r now nowIso) (by rw [e2]; decide)]
        have hl := List.length_filter_le (fun a => a.alert_type == dim)
          (_check_humidity_alerts sim r now nowIso)
        simp only [List.length_nil]
        omega
      · by_cases e3 : dim = "pressure"
        · rw [filter_eq_nil_of_types (check_temperature_types sim r now nowIso) (by rw [e3]; decide),
              filter_eq_nil_of_types (check_humidity_types sim r now nowIso) (by rw [e3]; decide),
              filter_eq_nil_of_types (check_battery_types sim r now nowIso) (by rw [e3]; decide)]
          have hl := List.length_filter_le (fun a => a.alert_type == dim)
            (_check_pressure_alerts sim r now nowIso)
          simp only [List.length_nil]
          omega
        · by_cases e4 : dim = "battery"
          · rw [filter_eq_nil_of_types (check_temperature_types sim r now nowIso) (by rw [e4]; decide),
                filter_eq_nil_of_types (check_humidity_types sim r now nowIso) (by rw [e4]; decide),
                filter_eq_nil_of_types (check_pressure_types sim r now nowIso) (by rw [e4]; decide)]
            have hl := List.length_filter_le (fun a => a.alert_type == dim)
              (_check_battery_alerts sim r now nowIso)
            simp only [List.length_nil]
            omega
          · rw [filter_eq_nil_of_types (check_temperature_types sim r now nowIso) e1,
                filter_eq_nil_of_types (check_humidity_types sim r now nowIso) e2,
                filter_eq_nil_of_types (check_pressure_types sim r now nowIso) e3,
                filter_eq_nil_of_types (check_battery_types sim r now nowIso) e4]
            simp

/-- C3: a reading with battery 0.15 under battery thresholds
`{low: 0.2, critical: 0.1}` produces, among all alerts of
`detect_anomalies`, exactly one battery alert; it has severity
`"medium"` (not `"critical"`) and carries the low threshold 0.2, since
0.15 > 0.1 falls past the critical branch and 0.15 ≤ 0.2 matches the
low branch. -/
theorem battery_015_single_medium_alert
    (sim : SensorSimulator) (r : SensorData) (now : ℕ) (nowIso : String)
    (hb : r.battery_level = 0.15)
    (hlow : sim.alert_thresholds.battery.low = 0.2)
    (hcrit : sim.alert_thresholds.battery.critical = 0.1) :
    ∃ a : SensorAlert,
      (detect_anomalies sim r now nowIso).filter
          (fun x => x.alert_type == "battery") = [a] ∧
      _check_battery_alerts sim r now nowIso = [a] ∧
      a.alert_type = "battery" ∧ a.severity = "medium" ∧
      a.severity ≠ "critical" ∧ a.value = 0.15 ∧ a.threshold = 0.2 := by
  have hcrit15 : ¬ (r.battery_level ≤ sim.alert_thresholds.battery.critical) := by
    rw [hb, hcrit]; norm_num
  have hlow15 : r.battery_level ≤ sim.alert_thresholds.battery.low := by
    rw [hb, hlow]; norm_num
  have hbat : _check_battery_alerts sim r now nowIso
      = [ _create_alert sim r "battery" "medium" r.battery_level
            sim.alert_thresholds.battery.low
            ("Batterie faible: " ++ fmt0 (r.battery_level * 100) ++ "% (seuil: " ++
              fmt0 (sim.alert_thresholds.battery.low * 100) ++ "%)") now nowIso] := by
    unfold _check_battery_alerts
    dsimp only
    rw [if_neg hcrit15, if_pos hlow15]
  refine ⟨ _create_alert sim r "battery" "medium" r.battery_level
      sim.alert_thresholds.battery.low
      ("Batterie faible: " ++ fmt0 (r.battery_level * 100) ++ "% (seuil: " ++
        fmt0 (sim.alert_thresholds.battery.low * 100) ++ "%)") now nowIso,
    ?_, hbat, rfl, rfl, by simp [ _create_alert], hb, hlow⟩
  simp only [detect_anomalies, List.filter_append]
  rw [filter_eq_nil_of_types (check_temperature_types sim r now nowIso) (by decide),
      filter_eq_nil_of_types (check_humidity_types sim r now nowIso) (by decide),
      filter_eq_nil_of_types (check_pressure_types sim r now nowIso) (by decide),
      hbat]
  simp [ _create_alert]

/-- Witness for C3: the concrete reading `readingBattery015` against the
default thresholds of `SensorSimulator.init`. -/
theorem battery_015_single_medium_alert_witness :
    readingBattery015.battery_level = 0.15 ∧
    SensorSimulator.init.alert_thresholds.battery.low = 0.2 ∧
    SensorSimulator.init.alert_thresholds.battery.critical = 0.1 ∧
    ∃ a : SensorAlert,
      (detect_anomalies SensorSimulator.init readingBattery015
          1730000000 "2025-10-29T14:30:00Z").filter
          (fun x => x.alert_type == "battery") = [a] ∧
      _check_battery_alerts SensorSimulator.init readingBattery015
          1730000000 "2025-10-29T14:30:00Z" = [a] ∧
      a.alert_type = "battery" ∧ a.severity = "medium" ∧
      a.severity ≠ "critical" ∧ a.value = 0.15 ∧ a.threshold = 0.2 :=
  ⟨rfl, rfl, rfl,
    battery_015_single_medium_alert SensorSimulator.init readingBattery015
      1730000000 "2025-10-29T14:30:00Z" rfl rfl rfl⟩

/-! ### Rounding and clamping bounds (for C5 and C6) -/

/-- The `roundHalfEven` never drops below an integer lower bound. -/
theorem le_roundHalfEven {y : ℚ} {m : ℤ} (h : (m : ℚ) ≤ y) :
    m ≤ roundHalfEven y := by
  unfold roundHalfEven
  have hf : m ≤ ⌊y⌋ := Int.le_floor.mpr h
  dsimp only
  split_ifs <;> omega

/-- The `roundHalfEven` never exceeds an integer upper bound. -/
theorem roundHalfEven_le {y : ℚ} {m : ℤ} (h : y ≤ (m : ℚ)) :
    roundHalfEven y ≤ m := by
  unfold roundHalfEven
  have hf : ⌊y⌋ ≤ m := by
    have h2 := Int.floor_le_floor h
    simpa using h2
  have key : ¬ (y - ⌊y⌋ < 1/2) → ⌊y⌋ + 1 ≤ m := by
    intro hs
    push_neg at hs
    have hfl : (⌊y⌋ : ℚ) < (m : ℚ) := by linarith
    exact_mod_cast Int.add_one_le_iff.mpr (by exact_mod_cast hfl)
  dsimp only
  split_ifs with h1 h2 h3
  · exact hf
  · exact key h1
  · exact hf
  · exact key h1

/-- The `round2` keeps a value between bounds that are exact hundredths. -/
theorem round2_mem_of_mem {lo hi x : ℚ} {m n : ℤ}
    (hlo : (m : ℚ) / 100 = lo) (hhi : (n : ℚ) / 100 = hi)
    (h1 : lo ≤ x) (h2 : x ≤ hi) : lo ≤ round2 x ∧ round2 x ≤ hi := by
  unfold round2
  constructor
  · have hm : (m : ℚ) ≤ 100 * x := by
      rw [← hlo] at h1; linarith
    have h3 := le_roundHalfEven hm
    have hc : (m : ℚ) ≤ ((roundHalfEven (100 * x) : ℤ) : ℚ) := by exact_mod_cast h3
    rw [← hlo]
    linarith
  · have hm : 100 * x ≤ (n : ℚ) := by
      rw [← hhi] at h2; linarith
    have h3 := roundHalfEven_le hm
    have hc : ((roundHalfEven (100 * x) : ℤ) : ℚ) ≤ (n : ℚ) := by exact_mod_cast h3
    rw [← hhi]
    linarith

/-- The `max(lo, min(hi, x))` lands in `[lo, hi]` when `lo ≤ hi`. -/
theorem clamp_mem {lo hi : ℚ} (x : ℚ) (h : lo ≤ hi) :
    lo ≤ clamp lo hi x ∧ clamp lo hi x ≤ hi := by
  unfold clamp
  exact ⟨le_max_left lo _, max_le h (min_le_left hi x)⟩

/-- Clamping then rounding stays in `[lo, hi]` for exact-hundredth
bounds. -/
theorem round2_clamp_mem {lo hi : ℚ} (x : ℚ) {m n : ℤ}
    (hlo : (m : ℚ) / 100 = lo) (hhi : (n : ℚ) / 100 = hi) (h : lo ≤ hi) :
    lo ≤ round2 (clamp lo hi x) ∧ round2 (clamp lo hi x) ≤ hi := by
  obtain ⟨c1, c2⟩ := clamp_mem x h
  exact round2_mem_of_mem hlo hhi c1 c2

/-- The `a + (b - a) * u` lands in `[a, b]` for `u ∈ [0, 1]` and `a ≤ b`. -/
theorem uniform_mem {a b u : ℚ} (hab : a ≤ b) (h0 : 0 ≤ u) (h1 : u ≤ 1) :
    a ≤ uniform a b u ∧ uniform a b u ≤ b := by
  unfold uniform
  constructor
  · nlinarith
  · nlinarith

/-- C5: every reading produced by `generate_sensor_data` under the
default `normal_ranges`, whatever the gaussian draws, satisfies
temperature ∈ [15,35], humidity ∈ [20,95], pressure ∈ [980,1040] and
battery ∈ [0,1] (the uniform draw `random.random()` lies in [0,1]). -/
theorem generated_reading_in_range
    (sim : SensorSimulator) (sensor_id nowIso : String) (d : Draws)
    (hr : sim.normal_ranges = SensorSimulator.init.normal_ranges)
    (h0 : 0 ≤ d.uBattery) (h1 : d.uBattery ≤ 1) :
    15 ≤ (generate_sensor_data sim sensor_id nowIso d).1.temperature ∧
    (generate_sensor_data sim sensor_id nowIso d).1.temperature ≤ 35 ∧
    20 ≤ (generate_sensor_data sim sensor_id nowIso d).1.humidity ∧
    (generate_sensor_data sim sensor_id nowIso d).1.humidity ≤ 95 ∧
    980 ≤ (generate_sensor_data sim sensor_id nowIso d).1.pressure ∧
    (generate_sensor_data sim sensor_id nowIso d).1.pressure ≤ 1040 ∧
    0 ≤ (generate_sensor_data sim sensor_id nowIso d).1.battery_level ∧
    (generate_sensor_data sim sensor_id nowIso d).1.battery_level ≤ 1 := by
  have hbat : (0 : ℚ) ≤ round2 (uniform (3/10) 1 d.uBattery) ∧
      round2 (uniform (3/10) 1 d.uBattery) ≤ 1 := by
    obtain ⟨u1, u2⟩ := uniform_mem (by norm_num : (3/10 : ℚ) ≤ 1) h0 h1
    obtain ⟨b1, b2⟩ := round2_mem_of_mem (m := 30) (n := 100) (by norm_num) (by norm_num) u1 u2
    exact ⟨by linarith, b2⟩
  refine ⟨?_, ?_, ?_, ?_, ?_, ?_, ?_, ?_⟩ <;>
    norm_num [generate_sensor_data, hr, SensorSimulator.init]
  · exact (round2_clamp_mem _ (m := 1500) (n := 3500)
      (by norm_num) (by norm_num) (by norm_num)).1
  · exact (round2_clamp_mem _ (m := 1500) (n := 3500)
      (by norm_num) (by norm_num) (by norm_num)).2
  · exact (round2_clamp_mem _ (m := 2000) (n := 9500)
      (by norm_num) (by norm_num) (by norm_num)).1
  · exact (round2_clamp_mem _ (m := 2000) (n := 9500)
      (by norm_num) (by norm_num) (by norm_num)).2
  · exact (round2_clamp_mem _ (m := 98000) (n := 104000)
      (by norm_num) (by norm_num) (by norm_num)).1
  · exact (round2_clamp_mem _ (m := 98000) (n := 104000)
      (by norm_num) (by norm_num) (by norm_num)).2
  · exact hbat.1
  · exact hbat.2

/-- Witness for C5: the default simulator with all-zero draws. -/
theorem generated_reading_in_range_witness :
    SensorSimulator.init.normal_ranges = SensorSimulator.init.normal_ranges ∧
    (0 : ℚ) ≤ drawsZero.uBattery ∧ drawsZero.uBattery ≤ 1 ∧
    (15 ≤ (generate_sensor_data SensorSimulator.init "sensor_001" "ts" drawsZero).1.temperature ∧
     (generate_sensor_data SensorSimulator.init "sensor_001" "ts" drawsZero).1.temperature ≤ 35 ∧
     20 ≤ (generate_sensor_data SensorSimulator.init "sensor_001" "ts" drawsZero).1.humidity ∧
     (generate_sensor_data SensorSimulator.init "sensor_001" "ts" drawsZero).1.humidity ≤ 95 ∧
     980 ≤ (generate_sensor_data SensorSimulator.init "sensor_001" "ts" drawsZero).1.pressure ∧
     (generate_sensor_data SensorSimulator.init "sensor_001" "ts" drawsZero).1.pressure ≤ 1040 ∧
     0 ≤ (generate_sensor_data SensorSimulator.init "sensor_001" "ts" drawsZero).1.battery_level ∧
     (generate_sensor_data SensorSimulator.init "sensor_001" "ts" drawsZero).1.battery_level ≤ 1) :=
  ⟨rfl, by norm_num [drawsZero], by norm_num [drawsZero],
    generated_reading_in_range SensorSimulator.init "sensor_001" "ts" drawsZero
      rfl (by norm_num [drawsZero]) (by norm_num [drawsZero])⟩

/-- C6 counterexample: for the pressure draw 200 standard deviations
above the mean, `generate_custom_sensor_data` with pressure omitted
returns the unclamped rounded draw 2013.25 hPa, while
`generate_sensor_data` on the same draw clamps to the configured
maximum 1040 hPa — so the omitted-pressure path is NOT the same
generation procedure as `generate`. -/
theorem custom_pressure_differs_from_generate :
    (generate_custom_sensor_data SensorSimulator.init "sensor_custom" 22 55
        none none "ts" drawsHighPressure).1.pressure = 2013.25 ∧
    (generate_sensor_data SensorSimulator.init "sensor_custom" "ts"
        drawsHighPressure).1.pressure = 1040 ∧
    (generate_custom_sensor_data SensorSimulator.init "sensor_custom" 22 55
        none none "ts" drawsHighPressure).1.pressure ≠
      (generate_sensor_data SensorSimulator.init "sensor_custom" "ts"
        drawsHighPressure).1.pressure := by
  have h1 : (generate_custom_sensor_data SensorSimulator.init "sensor_custom" 22 55
      none none "ts" drawsHighPressure).1.pressure = 2013.25 := by
    norm_num [generate_custom_sensor_data, SensorSimulator.init, drawsHighPressure,
      gauss, round2, roundHalfEven]
  have h2 : (generate_sensor_data SensorSimulator.init "sensor_custom" "ts"
      drawsHighPressure).1.pressure = 1040 := by
    norm_num [generate_sensor_data, SensorSimulator.init, drawsHighPressure,
      gauss, round2, roundHalfEven, clamp]
  refine ⟨h1, h2, ?_⟩
  rw [h1, h2]
  norm_num

/-- C6 (amended): for equal draws, the omitted battery of
`generate_custom_sensor_data` coincides with the battery of
`generate_sensor_data` (same uniform draw, rounded); the omitted pressure is the
gaussian draw rounded to 2 decimals WITHOUT clamping, and therefore
coincides with the pressure of `generate_sensor_data` exactly when the draw
already lies within the configured `[min, max]`. -/
theorem custom_omitted_fields_vs_generate
    (sim : SensorSimulator) (sensor_id sid2 : String)
    (temperature humidity : ℚ) (nowIso iso2 : String) (d : Draws) :
    (generate_custom_sensor_data sim sensor_id temperature humidity
        none none nowIso d).1.battery_level
      = (generate_sensor_data sim sid2 iso2 d).1.battery_level ∧
    (generate_custom_sensor_data sim sensor_id temperature humidity
        none none nowIso d).1.pressure
      = round2 (gauss sim.normal_ranges.pressure.mean
          sim.normal_ranges.pressure.std d.zPressure) ∧
    (sim.normal_ranges.pressure.min ≤ gauss sim.normal_ranges.pressure.mean
        sim.normal_ranges.pressure.std d.zPressure →
      gauss sim.normal_ranges.pressure.mean
        sim.normal_ranges.pressure.std d.zPressure ≤ sim.normal_ranges.pressure.max →
      (generate_custom_sensor_data sim sensor_id temperature humidity
          none none nowIso d).1.pressure
        = (generate_sensor_data sim sid2 iso2 d).1.pressure) := by
  refine ⟨rfl, rfl, ?_⟩
  intro hlo hhi
  have hcl : clamp sim.normal_ranges.pressure.min sim.normal_ranges.pressure.max
      (gauss sim.normal_ranges.pressure.mean sim.normal_ranges.pressure.std d.zPressure)
      = gauss sim.normal_ranges.pressure.mean sim.normal_ranges.pressure.std d.zPressure := by
    unfold clamp
    rw [min_eq_right hhi, max_eq_right hlo]
  show round2 (gauss sim.normal_ranges.pressure.mean
      sim.normal_ranges.pressure.std d.zPressure)
    = round2 (clamp sim.normal_ranges.pressure.min sim.normal_ranges.pressure.max
        (gauss sim.normal_ranges.pressure.mean sim.normal_ranges.pressure.std d.zPressure))
  rw [hcl]

/-- Witness for C6 (amended), at all-zero draws: the pressure draw is
the mean 1013.25, inside [980, 1040], and the two procedures agree. -/
theorem custom_omitted_fields_vs_generate_witness :
    (SensorSimulator.init.normal_ranges.pressure.min ≤
      gauss SensorSimulator.init.normal_ranges.pressure.mean
        SensorSimulator.init.normal_ranges.pressure.std drawsZero.zPressure) ∧
    (gauss SensorSimulator.init.normal_ranges.pressure.mean
        SensorSimulator.init.normal_ranges.pressure.std drawsZero.zPressure ≤
      SensorSimulator.init.normal_ranges.pressure.max) ∧
    (generate_custom_sensor_data SensorSimulator.init "sensor_custom" 22 55
        none none "ts" drawsZero).1.battery_level
      = (generate_sensor_data SensorSimulator.init "sensor_001" "ts2" drawsZero).1.battery_level ∧
    (generate_custom_sensor_data SensorSimulator.init "sensor_custom" 22 55
        none none "ts" drawsZero).1.pressure
      = (generate_sensor_data SensorSimulator.init "sensor_001" "ts2" drawsZero).1.pressure :=
  ⟨by norm_num [SensorSimulator.init, drawsZero, gauss],
    by norm_num [SensorSimulator.init, drawsZero, gauss],
    (custom_omitted_fields_vs_generate SensorSimulator.init "sensor_custom" "sensor_001"
      22 55 "ts" "ts2" drawsZero).1,
    (custom_omitted_fields_vs_generate SensorSimulator.init "sensor_custom" "sensor_001"
      22 55 "ts" "ts2" drawsZero).2.2
      (by norm_num [SensorSimulator.init, drawsZero, gauss])
      (by norm_num [SensorSimulator.init, drawsZero, gauss])⟩

/-- C2: with the admin handle present and no broker-side failure
injected, `ensure_topics_exist` returns success whether the topics are
new or already exist — the "already exists" exception is swallowed and
treated as success — so two successive calls with identical specs both
return success; and any exception other than "already exists" is
reported as `False` (the return type shows nothing is re-raised). -/
theorem ensure_topics_exist_idempotent
    (km : KafkaManager) (broker : Broker) (topics_config : List TopicConfig)
    (hadmin : km.admin_client.isSome = true) (hok : broker.failure = none) :
    (ensure_topics_exist km broker topics_config).1 = true ∧
    (ensure_topics_exist km
      (ensure_topics_exist km broker topics_config).2 topics_config).1 = true ∧
    ∀ (b2 : Broker) (t : String), b2.failure = some t →
      str_in "TopicAlreadyExistsException" t = false →
      (ensure_topics_exist km b2 topics_config).1 = false := by
  obtain ⟨a, ha⟩ := Option.isSome_iff_exists.mp hadmin
  have htaee : str_in "TopicAlreadyExistsException"
      "<class kafka.errors.TopicAlreadyExistsException>" = true := by decide
  have main : ∀ b : Broker, b.failure = none →
      (ensure_topics_exist km b topics_config).1 = true ∧
      (ensure_topics_exist km b topics_config).2.failure = none := by
    intro b hb
    simp only [ensure_topics_exist, create_topics, hb, ha, Option.isNone_some,
      Bool.false_eq_true, if_false]
    split_ifs with hc
    · simp [htaee, hb]
    · simp [hb]
  refine ⟨(main broker hok).1, (main _ (main broker hok).2).1, ?_⟩
  intro b2 t hb2 ht
  simp only [ensure_topics_exist, create_topics, hb2, ha, Option.isNone_some,
    Bool.false_eq_true, if_false]
  simp [ht]

/-- Witness for C2: provisioning `sensors`/`alerts` twice on an
initially empty broker through a manager holding an admin handle. -/
theorem ensure_topics_exist_idempotent_witness :
    kmConnected.admin_client.isSome = true ∧ brokerEmpty.failure = none ∧
    ((ensure_topics_exist kmConnected brokerEmpty topicsCfg).1 = true ∧
     (ensure_topics_exist kmConnected
       (ensure_topics_exist kmConnected brokerEmpty topicsCfg).2 topicsCfg).1 = true ∧
     ∀ (b2 : Broker) (t : String), b2.failure = some t →
       str_in "TopicAlreadyExistsException" t = false →
       (ensure_topics_exist kmConnected b2 topicsCfg).1 = false) :=
  ⟨rfl, rfl, ensure_topics_exist_idempotent kmConnected brokerEmpty topicsCfg rfl rfl⟩

/-- The batch loop publishes each payload once, in order, counting the
successful sends (indices from `i`); the manager state is unchanged. -/
theorem publish_batch_go_spec {M : Type} (km : KafkaManager) (ok : ℕ → Bool)
    (topic : String) (h1 : km.is_connected = true) (h2 : km.producer.isSome = true) :
    ∀ (msgs : List M) (i : ℕ),
      publish_batch_go ok topic km i msgs
        = ((List.range' i msgs.length).countP ok,
           msgs.map (fun m => KEvent.send topic m), km) := by
  obtain ⟨u, hu⟩ := Option.isSome_iff_exists.mp h2
  intro msgs
  induction msgs with
  | nil => intro i; simp [publish_batch_go]
  | cons m rest ih =>
    intro i
    have hpm : publish_message km (ok i) topic m
        = (ok i, [KEvent.send topic m], km) := by
      simp [publish_message, h1, hu]
    simp only [publish_batch_go, hpm]
    rw [ih (i + 1)]
    simp only [List.length_cons, List.range'_succ, List.countP_cons, List.map_cons]
    refine Prod.ext ?_ rfl
    simp [Nat.add_comm]

/-- C7: with the coordinator connected and a producer handle present,
`publish_batch` publishes each payload exactly once in order, returns
the number of payloads whose individual publish succeeded, and invokes
`flush` exactly once, after the per-payload sends and before returning;
the manager state is unchanged. -/
theorem publish_batch_counts_successes_and_flushes_once {M : Type}
    (km : KafkaManager) (ok : ℕ → Bool) (topic : String) (messages : List M)
    (h1 : km.is_connected = true) (h2 : km.producer.isSome = true) :
    publish_batch km ok topic messages
      = ((List.range messages.length).countP ok,
         (messages.map (fun m => KEvent.send topic m)) ++ [KEvent.flush], km) := by
  obtain ⟨u, hu⟩ := Option.isSome_iff_exists.mp h2
  simp only [publish_batch, h1, hu]
  rw [publish_batch_go_spec km ok topic h1 h2 messages 0]
  simp [List.range_eq_range']

/-- Witness for C7: five payloads with transport failures on calls 1
and 3 yield a count of 3 and a trace of five sends followed by a single
flush. -/
theorem publish_batch_counts_witness :
    kmConnected.is_connected = true ∧ kmConnected.producer.isSome = true ∧
    publish_batch kmConnected failOn1and3 "sensors" ([10, 20, 30, 40, 50] : List ℕ)
      = (3, [KEvent.send "sensors" 10, KEvent.send "sensors" 20,
             KEvent.send "sensors" 30, KEvent.send "sensors" 40,
             KEvent.send "sensors" 50, KEvent.flush], kmConnected) := by
  refine ⟨rfl, rfl, ?_⟩
  rw [publish_batch_counts_successes_and_flushes_once kmConnected failOn1and3
    "sensors" ([10, 20, 30, 40, 50] : List ℕ) rfl rfl]
  decide

/-- The `publish_message` as a single equation: the result and trace depend
on the connection guard, the manager is always returned unchanged. -/
theorem publish_message_eq {M : Type} (km : KafkaManager) (o : Bool)
    (t : String) (m : M) :
    publish_message km o t m
      = (if (!km.is_connected || km.producer.isNone) = true then false else o,
         if (!km.is_connected || km.producer.isNone) = true then []
           else [KEvent.send t m],
         km) := by
  unfold publish_message
  split <;> simp_all

/-- The alert-publishing inner loop never mutates the manager. -/
theorem publish_alerts_go_snd (ok : ℕ → Bool) (km : KafkaManager) :
    ∀ (l : List SensorAlert) (j : ℕ), (publish_alerts_go ok km j l).2 = km := by
  intro l
  induction l with
  | nil => intro j; rfl
  | cons a rest ih =>
    intro j
    have h := ih (j + 1)
    rcases hag : publish_alerts_go ok km (j + 1) rest with ⟨c, km3⟩
    rw [hag] at h
    simp only [publish_alerts_go, publish_message_eq, hag]
    simpa using h

/-- The reading loop of `trigger_sensors`: with the manager connected
and holding a producer, the number of successful reading publishes is
the count of `readingOk` over the loop indices; the published-events
counter grows by exactly that count and the triggered-sensors counter
is untouched by the loop; the manager state is unchanged. -/
theorem trigger_loop_spec (sim : SensorSimulator) (now : ℕ) (nowIso : String)
    (readingOk : ℕ → Bool) (alertOk : ℕ → ℕ → Bool) (km : KafkaManager)
    (h1 : km.is_connected = true) (h2 : km.producer.isSome = true) :
    ∀ (batch : List SensorData) (i : ℕ) (stats : Statistics),
      ∃ ag : ℕ,
        trigger_loop sim now nowIso readingOk alertOk km i batch stats
          = ((List.range' i batch.length).countP readingOk, ag,
             { stats with total_events_published :=
                 stats.total_events_published
                   + (List.range' i batch.length).countP readingOk },
             km) := by
  obtain ⟨u, hu⟩ := Option.isSome_iff_exists.mp h2
  intro batch
  induction batch with
  | nil =>
    intro i stats
    exact ⟨0, by simp [trigger_loop]⟩
  | cons m rest ih =>
    intro i stats
    have hpm : publish_message km (readingOk i) SENSOR_TOPIC m
        = (readingOk i, [KEvent.send SENSOR_TOPIC m], km) := by
      simp [publish_message, h1, hu]
    simp only [trigger_loop, hpm]
    by_cases hro : readingOk i = true
    · simp only [hro, if_true]
      rcases hag : publish_alerts_go (alertOk i) km 0
          (detect_anomalies sim m now nowIso) with ⟨a, km2⟩
      have hkm2 : km2 = km := by
        have h := publish_alerts_go_snd (alertOk i) km
          (detect_anomalies sim m now nowIso) 0
        rw [hag] at h
        exact h
      subst hkm2
      obtain ⟨ag, hrec⟩ := ih (i + 1)
        { stats with total_events_published := stats.total_events_published + 1 }
      dsimp only
      simp only [hrec]
      refine ⟨ag + a, ?_⟩
      simp only [List.length_cons, List.range'_succ, List.countP_cons, hro,
        if_true]
      refine Prod.ext ?_ (Prod.ext rfl (Prod.ext ?_ rfl))
      · simp [Nat.add_comm]
      · simp only []
        congr 1
        omega
    · have hro' : readingOk i = false := by
        revert hro
        cases readingOk i <;> simp
      simp only [hro', Bool.false_eq_true, if_false]
      obtain ⟨ag, hrec⟩ := ih (i + 1) stats
      simp only [hrec]
      refine ⟨ag, ?_⟩
      simp [List.range'_succ, List.countP_cons, hro']

/-- The batch-generation loop produces one reading per index. -/
theorem generate_batch_go_length (nowIso : String) (ds : ℕ → Draws) :
    ∀ (l : List ℕ) (sim : SensorSimulator),
      (generate_batch_go nowIso ds l sim).1.length = l.length := by
  intro l
  induction l with
  | nil => intro sim; rfl
  | cons i rest ih =>
    intro sim
    simp only [generate_batch_go]
    rcases h1 : generate_sensor_data sim ("sensor_" ++ pad3 i) nowIso (ds i)
      with ⟨data, sim1⟩
    simp only [h1]
    rcases h2 : generate_batch_go nowIso ds rest sim1 with ⟨batch, sim2⟩
    have h3 := ih sim1
    rw [h2] at h3
    simp [h2, h3]

/-- The `generate_batch` produces exactly `count` readings. -/
theorem generate_batch_length (sim : SensorSimulator) (nowIso : String)
    (ds : ℕ → Draws) (count : ℕ) :
    (generate_batch sim nowIso ds count).1.length = count := by
  simp [generate_batch, generate_batch_go_length, List.length_range']

/-- C8: when the connected check passes and the loop completes, the
triggered-sensors counter grows by exactly `count` while the
published-events counter grows only by the number of readings whose
publish succeeded (the count of `readingOk` over the loop indices) — so
the two counters diverge under partial publish failure. -/
theorem trigger_sensors_counters
    (km : KafkaManager) (sim : SensorSimulator) (stats : Statistics)
    (count : ℕ) (now : ℕ) (nowIso : String) (ds : ℕ → Draws)
    (readingOk : ℕ → Bool) (alertOk : ℕ → ℕ → Bool)
    (h1 : km.is_connected = true) (h2 : km.producer.isSome = true) :
    ∃ (resp : TriggerResponse) (sim2 : SensorSimulator),
      trigger_sensors km sim stats count now nowIso ds readingOk alertOk
        = Except.ok (resp,
            { total_events_published := stats.total_events_published
                + (List.range count).countP readingOk,
              total_sensors_triggered := stats.total_sensors_triggered + count },
            sim2, km) ∧
      resp.sensors_triggered = count ∧
      resp.events_published = (List.range count).countP readingOk := by
  simp only [trigger_sensors, h1, Bool.not_true, Bool.false_eq_true, if_false]
  rcases hgb : generate_batch sim nowIso ds count with ⟨batch, sim2⟩
  have hlen : batch.length = count := by
    have h := generate_batch_length sim nowIso ds count
    rw [hgb] at h
    exact h
  simp only [hgb]
  obtain ⟨ag, hloop⟩ :=
    trigger_loop_spec sim2 now nowIso readingOk alertOk km h1 h2 batch 0 stats
  rw [hlen, ← List.range_eq_range'] at hloop
  simp only [hloop]
  exact ⟨_, sim2, rfl, rfl, rfl⟩

/-- Witness for C8: three requested readings with the transport failing
on the second — the triggered counter grows by 3, the published counter
by only 2. -/
theorem trigger_sensors_counters_witness :
    kmConnected.is_connected = true ∧ kmConnected.producer.isSome = true ∧
    (List.range 3).countP (fun i => !(i == 1)) = 2 ∧
    ∃ (resp : TriggerResponse) (sim2 : SensorSimulator),
      trigger_sensors kmConnected SensorSimulator.init ⟨0, 0⟩ 3 1730000000 "ts"
          (fun _ => drawsZero) (fun i => !(i == 1)) (fun _ _ => true)
        = Except.ok (resp,
            { total_events_published := 0 + (List.range 3).countP (fun i => !(i == 1)),
              total_sensors_triggered := 0 + 3 },
            sim2, kmConnected) ∧
      resp.sensors_triggered = 3 ∧
      resp.events_published = (List.range 3).countP (fun i => !(i == 1)) :=
  ⟨rfl, rfl, by decide,
    trigger_sensors_counters kmConnected SensorSimulator.init ⟨0, 0⟩ 3 1730000000
      "ts" (fun _ => drawsZero) (fun i => !(i == 1)) (fun _ _ => true) rfl rfl⟩

end IoT
